import Mathlib

/-!
Verification development for the lowdelaytrans streaming pipeline.

Shallow embedding of the core stateful components of the repository:
the channel registry (src/utils/pipeline.py), the ASR windowing buffer
(src/asr/whisper_asr.py), the transcript merger (src/utils/transcript_writer.py),
the context-aware translation cache (src/translation/context_translator.py) and
the speaker identity tracker (src/audio/speaker_diarization.py).

Python dicts are embedded as insertion-ordered association lists; wall-clock
reads (time.time()) become explicit rational-number parameters; external
inference collaborators (voice encoder, translation engine, md5) become
function parameters.  Machine floats carrying durations, timestamps and
similarities are embedded as exact rationals.
-/

namespace LowDelay

/-! ### Association-list helpers (Python dict semantics)

A Python dict preserves insertion order; assigning to an existing key updates
the value in place, assigning a fresh key appends; `del` removes the single
binding of the key. -/

/-- Lookup of a key in an insertion-ordered association list (dict access). -/
def lookupKey {K V : Type} [DecidableEq K] (k : K) : List (K × V) → Option V
  | [] => none
  | (k1, v) :: rest => if k1 = k then some v else lookupKey k rest

/-- Dict assignment: update in place if the key is present, append otherwise. -/
def setKey {K V : Type} [DecidableEq K] (k : K) (v : V) : List (K × V) → List (K × V)
  | [] => [(k, v)]
  | (k1, v1) :: rest => if k1 = k then (k, v) :: rest else (k1, v1) :: setKey k v rest

/-- Dict deletion: remove the binding of the key (keys are unique in our maps). -/
def eraseKey {K V : Type} [DecidableEq K] (k : K) : List (K × V) → List (K × V)
  | [] => []
  | (k1, v1) :: rest => if k1 = k then rest else (k1, v1) :: eraseKey k rest

theorem lookupKey_setKey_self {K V : Type} [DecidableEq K] (k : K) (v : V)
    (l : List (K × V)) : lookupKey k (setKey k v l) = some v := by
  induction l with
  | nil => simp [setKey, lookupKey]
  | cons p rest ih =>
    by_cases h : p.1 = k
    · simp [setKey, lookupKey, h]
    · simp [setKey, lookupKey, h, ih]

theorem lookupKey_setKey_ne {K V : Type} [DecidableEq K] (k k2 : K) (v : V)
    (l : List (K × V)) (hne : k ≠ k2) :
    lookupKey k2 (setKey k v l) = lookupKey k2 l := by
  induction l with
  | nil => simp [setKey, lookupKey, hne]
  | cons p rest ih =>
    by_cases h : p.1 = k
    · simp [setKey, lookupKey, h, hne]
    · simp [setKey, lookupKey, h, ih]

/-- collections.deque with maxlen: append to the right, dropping from the left
whatever exceeds the capacity. -/
def dequeAppend {α : Type} (maxlen : Nat) (buf : List α) (x : α) : List α :=
  let b := buf ++ [x]
  if b.length ≤ maxlen then b else b.drop (b.length - maxlen)

/-! ### Channel registry (src/utils/pipeline.py, class QueueManager)

An mp.Queue is identified here by its construction-time capacity; the registry
is the class-level `_queues` dict. `get_queue` executes
`return cls._queues.get(name)`: it never raises, an absent name yields the
Python value None.  We embed the call in an Except monad so that the absence
of any raised error is part of the statement. -/

namespace Pipeline

/-- The payload of mp.Queue(maxsize=...) as far as the registry contract goes. -/
structure MPQueue where
  maxsize : Nat
  deriving DecidableEq, Repr

/-- A Python exception escaping a registry call (none ever does). -/
inductive QueueError : Type
  | notFound
  deriving DecidableEq, Repr

/-- The class-level `_queues : Dict[str, mp.Queue]` of QueueManager. -/
structure QueueManagerState where
  queues : List (String × MPQueue)
  deriving DecidableEq, Repr

/-- QueueManager.create_queue: `if name not in cls._queues: cls._queues[name] =
mp.Queue(maxsize=maxsize); return cls._queues[name]`. -/
def create_queue (st : QueueManagerState) (name : String) (maxsize : Nat) :
    MPQueue × QueueManagerState :=
  match lookupKey name st.queues with
  | some q => (q, st)
  | none =>
    let q : MPQueue := ⟨maxsize⟩
    (q, ⟨setKey name q st.queues⟩)

/-- QueueManager.get_queue: `return cls._queues.get(name)`.  The Except layer
records that the call returns normally (with None for an absent name) rather
than raising. -/
def get_queue (st : QueueManagerState) (name : String) :
    Except QueueError (Option MPQueue) :=
  Except.ok (lookupKey name st.queues)

/-- Modelled from the spec: the Channel Registry contract of section 4.1,
`get(name) -> Channel` fails with NotFound if absent.  The repository code of
QueueManager.get_queue does not implement this failure; this definition follows
the spec's words for comparison. -/
def get_queue_spec (st : QueueManagerState) (name : String) :
    Except QueueError MPQueue :=
  match lookupKey name st.queues with
  | some q => Except.ok q
  | none => Except.error QueueError.notFound

end Pipeline

/-- Claim C6 (counterexample): on a run in which no channel named
audio_input was ever created, get_queue succeeds with the value None instead of
failing with NotFound; the spec-following variant fails there, exhibiting the
divergence. -/
theorem claim_C6_get_absent_does_not_fail :
    Pipeline.get_queue ⟨[]⟩ "audio_input" = Except.ok none ∧
    Pipeline.get_queue_spec ⟨[]⟩ "audio_input" =
      Except.error Pipeline.QueueError.notFound := by
  constructor <;> rfl

/-- Claim C6 (amended): get(name) returns the absent value None, raising no
error, whenever no channel of that name has been created in the run;
create(name, capacity) is idempotent and returns the already-existing channel
(leaving the registry unchanged) when the name is taken. -/
theorem claim_C6_registry_contract (st : Pipeline.QueueManagerState)
    (absent taken : String) (cap : Nat) (q : Pipeline.MPQueue)
    (habs : lookupKey absent st.queues = none)
    (htaken : lookupKey taken st.queues = some q) :
    Pipeline.get_queue st absent = Except.ok none ∧
    Pipeline.create_queue st taken cap = (q, st) := by
  constructor
  · simp [Pipeline.get_queue, habs]
  · simp [Pipeline.create_queue, htaken]

/-- Claim C6 witness: the amended contract evaluated on a registry holding only
the channel asr_output of capacity 50. -/
theorem claim_C6_registry_contract_witness :
    Pipeline.get_queue ⟨[("asr_output", ⟨50⟩)]⟩ "transcript_input" =
      Except.ok none ∧
    Pipeline.create_queue ⟨[("asr_output", ⟨50⟩)]⟩ "asr_output" 100 =
      (⟨50⟩, ⟨[("asr_output", ⟨50⟩)]⟩) :=
  claim_C6_registry_contract ⟨[("asr_output", ⟨50⟩)]⟩ "transcript_input"
    "asr_output" 100 ⟨50⟩ (by decide) (by decide)

/-! ### Windowing buffer of the recognition stage (src/asr/whisper_asr.py)

WhisperASRProcess.loop accumulates fixed-rate audio chunks and flushes the
whole buffer into one utterance as soon as the accumulated duration reaches
min_duration_ms.  A chunk is embedded by its sample count; its duration in
milliseconds is (len(chunk) / 16000) * 1000, computed exactly in ℚ.  The
emitted utterance np.concatenate(self.audio_buffer) is embedded as the list of
buffered chunks (its duration is the sum of theirs). -/

namespace WhisperASR

/-- chunk_duration = (len(chunk) / 16000) * 1000. -/
def chunk_duration (samples : Nat) : ℚ := ((samples : ℚ) / 16000) * 1000

/-- The windowing thresholds fixed in WhisperASRProcess.__init__. -/
structure ASRConfig where
  min_duration_ms : ℚ
  max_duration_ms : ℚ
  deriving DecidableEq, Repr

/-- The thresholds hard-coded in the source: 2.5 s minimum, 4 s ceiling. -/
def whisperConfig : ASRConfig := ⟨2500, 4000⟩

/-- self.audio_buffer and self.buffer_duration_ms. -/
structure ASRBufferState where
  audio_buffer : List Nat
  buffer_duration_ms : ℚ
  deriving DecidableEq, Repr

/-- The fresh buffer state set up in __init__. -/
def initialBuffer : ASRBufferState := ⟨[], 0⟩

/-- WhisperASRProcess._process_buffer: emit the concatenated buffer (if
nonempty) and clear both the buffer and its accumulated duration. -/
def process_buffer (st : ASRBufferState) : Option (List Nat) × ASRBufferState :=
  if st.audio_buffer = [] then (none, st)
  else (some st.audio_buffer, initialBuffer)

/-- One iteration of WhisperASRProcess.loop on a received chunk: append the
chunk, add its duration, flush through _process_buffer once the minimum
duration is reached. -/
def loop_step (cfg : ASRConfig) (st : ASRBufferState) (chunk : Nat) :
    Option (List Nat) × ASRBufferState :=
  let st1 : ASRBufferState :=
    ⟨st.audio_buffer ++ [chunk], st.buffer_duration_ms + chunk_duration chunk⟩
  if st1.buffer_duration_ms ≥ cfg.min_duration_ms then process_buffer st1
  else (none, st1)

/-- Run of the loop over a sequence of incoming chunks, collecting the emitted
utterance windows in order. -/
def run (cfg : ASRConfig) (st : ASRBufferState) :
    List Nat → List (List Nat) × ASRBufferState
  | [] => ([], st)
  | c :: cs =>
    let r1 := loop_step cfg st c
    let r2 := run cfg r1.2 cs
    (r1.1.toList ++ r2.1, r2.2)

/-- Duration of an emitted utterance window (sum of its chunk durations). -/
def window_duration (w : List Nat) : ℚ := (w.map chunk_duration).sum

/-- The invariant tying the running duration counter to the buffered chunks:
the counter is exactly the buffered duration, and a nonempty buffer is always
strictly under the flush threshold. -/
def BufferWF (cfg : ASRConfig) (st : ASRBufferState) : Prop :=
  st.buffer_duration_ms = window_duration st.audio_buffer ∧
    (st.audio_buffer ≠ [] → st.buffer_duration_ms < cfg.min_duration_ms)

theorem chunk_duration_nonneg (c : Nat) : 0 ≤ chunk_duration c := by
  unfold chunk_duration
  positivity

theorem window_duration_nonneg (w : List Nat) : 0 ≤ window_duration w := by
  unfold window_duration
  induction w with
  | nil => simp
  | cons c cs ih =>
    simp only [List.map_cons, List.sum_cons]
    exact add_nonneg (chunk_duration_nonneg c) ih

theorem initialBuffer_wf (cfg : ASRConfig) : BufferWF cfg initialBuffer := by
  constructor
  · simp [initialBuffer, window_duration]
  · intro h
    simp [initialBuffer] at h

/-- Main induction for the windowing loop: well-formedness is preserved, the
emitted duration plus the residual buffered duration is exactly the input
duration, and every emitted window stays within one frame of the thresholds. -/
theorem run_invariant (cfg : ASRConfig) (F : ℚ)
    (h0 : 0 ≤ cfg.min_duration_ms)
    (chunks : List Nat) :
    ∀ st : ASRBufferState, BufferWF cfg st →
      (∀ c ∈ chunks, chunk_duration c ≤ F) →
      BufferWF cfg (run cfg st chunks).2 ∧
      (((run cfg st chunks).1.map window_duration).sum +
          (run cfg st chunks).2.buffer_duration_ms =
        st.buffer_duration_ms + (chunks.map chunk_duration).sum) ∧
      (∀ w ∈ (run cfg st chunks).1, window_duration w ≤ cfg.min_duration_ms + F) := by
  induction chunks with
  | nil =>
    intro st hwf _
    refine ⟨hwf, by simp [run], by simp [run]⟩
  | cons c cs ih =>
    intro st hwf hF
    have hcF : chunk_duration c ≤ F := hF c (by simp)
    have hcsF : ∀ x ∈ cs, chunk_duration x ≤ F := fun x hx => hF x (by simp [hx])
    -- analyse one loop_step
    have hstep :
        BufferWF cfg (loop_step cfg st c).2 ∧
        (((loop_step cfg st c).1.toList.map window_duration).sum +
            (loop_step cfg st c).2.buffer_duration_ms =
          st.buffer_duration_ms + chunk_duration c) ∧
        (∀ w ∈ (loop_step cfg st c).1.toList,
          window_duration w ≤ cfg.min_duration_ms + F) := by
      have hwd : window_duration (st.audio_buffer ++ [c]) =
          st.buffer_duration_ms + chunk_duration c := by
        unfold window_duration
        rw [List.map_append, List.sum_append]
        simp [hwf.1, window_duration]
      simp only [loop_step]
      by_cases hfl :
          st.buffer_duration_ms + chunk_duration c ≥ cfg.min_duration_ms
      · -- flush branch; the appended buffer is nonempty, so process_buffer emits
        have hne : st.audio_buffer ++ [c] ≠ [] := by simp
        rw [if_pos hfl]
        simp only [process_buffer]
        rw [if_neg hne]
        constructor
        · exact initialBuffer_wf cfg
        constructor
        · simp [initialBuffer, hwd]
        · intro w hw
          simp only [Option.toList_some, List.mem_singleton] at hw
          subst hw
          rw [hwd]
          by_cases hbe : st.audio_buffer = []
          · have hz : st.buffer_duration_ms = 0 := by
              rw [hwf.1, hbe]; simp [window_duration]
            rw [hz, zero_add]
            exact le_add_of_nonneg_of_le h0 hcF
          · have hlt := hwf.2 hbe
            have := add_le_add (le_of_lt hlt) hcF
            linarith
      · -- no flush: the chunk stays buffered
        rw [if_neg hfl]
        push_neg at hfl
        constructor
        · constructor
          · exact hwd.symm
          · intro _; exact hfl
        constructor
        · simp
        · intro w hw; simp at hw
    -- combine with the induction hypothesis on the rest of the stream
    have hrec := ih (loop_step cfg st c).2 hstep.1 hcsF
    have hrun :
        run cfg st (c :: cs) =
          ((loop_step cfg st c).1.toList ++ (run cfg (loop_step cfg st c).2 cs).1,
            (run cfg (loop_step cfg st c).2 cs).2) := rfl
    rw [hrun]
    constructor
    · exact hrec.1
    constructor
    · simp only [List.map_append, List.sum_append, List.map_cons, List.sum_cons]
      have h1 := hstep.2.1
      have h2 := hrec.2.1
      linarith
    · intro w hw
      rcases List.mem_append.mp hw with h | h
      · exact hstep.2.2 w h
      · exact hrec.2.2 w h

/-- Claim C2: for every sequence of audio frames fed to the recognition
stage's windowing buffer (started empty), the sum of the durations of the
emitted utterance windows never exceeds the total duration of the input
frames, and no single emitted utterance's duration exceeds max_duration_ms by
more than one frame's duration (F bounds the duration of every input frame;
the source fixes min_duration_ms = 2500 ≤ 4000 = max_duration_ms). -/
theorem claim_C2_windowing_bounds (cfg : ASRConfig) (chunks : List Nat) (F : ℚ)
    (h0 : 0 ≤ cfg.min_duration_ms)
    (hminmax : cfg.min_duration_ms ≤ cfg.max_duration_ms)
    (hF : ∀ c ∈ chunks, chunk_duration c ≤ F) :
    (((run cfg initialBuffer chunks).1.map window_duration).sum ≤
        (chunks.map chunk_duration).sum) ∧
    (∀ w ∈ (run cfg initialBuffer chunks).1,
        window_duration w ≤ cfg.max_duration_ms + F) := by
  have h := run_invariant cfg F h0 chunks initialBuffer (initialBuffer_wf cfg) hF
  constructor
  · have hfin : 0 ≤ (run cfg initialBuffer chunks).2.buffer_duration_ms := by
      rw [h.1.1]
      exact window_duration_nonneg _
    have hsum := h.2.1
    have hz : initialBuffer.buffer_duration_ms = 0 := rfl
    rw [hz] at hsum
    linarith
  · intro w hw
    have := h.2.2 w hw
    linarith

/-- Claim C2 witness: three 16000-sample (one-second) frames against the
source's 2500 ms / 4000 ms thresholds, every frame duration bounded by
1000 ms; one window of 3000 ms is emitted at the third frame. -/
theorem claim_C2_windowing_bounds_witness :
    (((run whisperConfig initialBuffer [16000, 16000, 16000]).1.map
        window_duration).sum ≤
      ([16000, 16000, 16000].map chunk_duration).sum) ∧
    (∀ w ∈ (run whisperConfig initialBuffer [16000, 16000, 16000]).1,
        window_duration w ≤ whisperConfig.max_duration_ms + 1000) :=
  claim_C2_windowing_bounds whisperConfig [16000, 16000, 16000] 1000
    (by norm_num [whisperConfig])
    (by norm_num [whisperConfig])
    (by intro c hc; fin_cases hc <;> norm_num [chunk_duration])

end WhisperASR

/-! ### Transcript merger (src/utils/transcript_writer.py)

TranscriptWriterProcess keeps one current accumulator (self.current_buffer)
and, per loop iteration, first flushes it if it has been idle longer than
speaker_timeout, then processes at most one received message.  A written
transcript entry is embedded as the argument tuple of _write_entry (one
timestamped, speaker-labelled line, plus an optional Orig continuation line
controlled by include_original — formatting only).  Each loop iteration reads
the wall clock; the iteration's clock value is the explicit `now` argument. -/

namespace TranscriptWriter

/-- An element of the transcript_input queue:
{"text": str, "original": str, "speaker_id": int|None, "timestamp": float}
(absent fields default as in _process_data). -/
structure TranscriptMsg where
  text : String
  original : String
  speaker_id : Option Nat
  timestamp : Option ℚ
  deriving DecidableEq, Repr

/-- self.current_buffer when open: speaker, fragment lists, start_time and
last_update. -/
structure MergeBuffer where
  speaker_id : Option Nat
  text_parts : List String
  original_parts : List String
  start_time : ℚ
  last_update : ℚ
  deriving DecidableEq, Repr

/-- The configuration fields of TranscriptWriterProcess used by the merge
logic. -/
structure WriterConfig where
  merge_segments : Bool
  speaker_timeout : ℚ
  deriving DecidableEq, Repr

/-- One call to _write_entry, recorded as its argument tuple. -/
structure WrittenEntry where
  speaker_id : Option Nat
  text : String
  original : String
  timestamp : ℚ
  deriving DecidableEq, Repr

/-- The mutable state of the writer: the single current accumulator slot. -/
structure WriterState where
  current_buffer : Option MergeBuffer
  deriving DecidableEq, Repr

/-- TranscriptWriterProcess._flush_buffer: join the fragments with single
spaces, write one entry stamped with the accumulator's start_time, clear the
slot. -/
def flush_buffer (st : WriterState) : List WrittenEntry × WriterState :=
  match st.current_buffer with
  | none => ([], st)
  | some b =>
    ([⟨b.speaker_id, String.intercalate " " b.text_parts,
        String.intercalate " " b.original_parts, b.start_time⟩], ⟨none⟩)

/-- TranscriptWriterProcess._process_data at wall-clock instant `now`
(time.time() of the iteration, also the default for an absent timestamp). -/
def process_data (cfg : WriterConfig) (st : WriterState) (data : TranscriptMsg)
    (now : ℚ) : List WrittenEntry × WriterState :=
  if data.text = "" then ([], st)
  else if cfg.merge_segments = false then
    ([⟨data.speaker_id, data.text, data.original, data.timestamp.getD now⟩], st)
  else
    -- flush first if the open accumulator belongs to a different speaker
    let r1 : List WrittenEntry × WriterState :=
      match st.current_buffer with
      | some b => if b.speaker_id ≠ data.speaker_id then flush_buffer st else ([], st)
      | none => ([], st)
    -- open a fresh accumulator if the slot is now empty
    let b : MergeBuffer :=
      match r1.2.current_buffer with
      | none => ⟨data.speaker_id, [], [], data.timestamp.getD now, now⟩
      | some b0 => b0
    -- append the fragments and refresh last_update
    (r1.1,
      ⟨some { b with
          text_parts := b.text_parts ++ [data.text],
          original_parts :=
            b.original_parts ++ (if data.original ≠ "" then [data.original] else []),
          last_update := now }⟩)

/-- The idle-flush check at the top of TranscriptWriterProcess.loop: an open
accumulator idle longer than speaker_timeout is flushed. -/
def timeout_flush (cfg : WriterConfig) (st : WriterState) (now : ℚ) :
    List WrittenEntry × WriterState :=
  match st.current_buffer with
  | some b =>
    if now - b.last_update > cfg.speaker_timeout then flush_buffer st else ([], st)
  | none => ([], st)

/-- One iteration of TranscriptWriterProcess.loop at instant `now`: either a
message is received from transcript_input, or the 0.5 s receive times out
(queue.Empty) and only the idle-flush check runs. -/
inductive WriterEvent : Type
  | msg (now : ℚ) (data : TranscriptMsg)
  | tick (now : ℚ)
  deriving DecidableEq, Repr

/-- One loop iteration: the idle-flush check always runs first; a received
message is then processed by _process_data. -/
def loop_step (cfg : WriterConfig) (st : WriterState) :
    WriterEvent → List WrittenEntry × WriterState
  | .tick now => timeout_flush cfg st now
  | .msg now data =>
    let r1 := timeout_flush cfg st now
    let r2 := process_data cfg r1.2 data now
    (r1.1 ++ r2.1, r2.2)

/-- A run of the writer loop over a sequence of iterations, collecting the
written entries in order. -/
def run (cfg : WriterConfig) (st : WriterState) :
    List WriterEvent → List WrittenEntry × WriterState
  | [] => ([], st)
  | e :: es =>
    let r1 := loop_step cfg st e
    let r2 := run cfg r1.2 es
    (r1.1 ++ r2.1, r2.2)

/-- Evaluation of the writer loop on the five-message scenario: three inputs
from speaker 1, one from speaker 2, one more from speaker 1, then a polling
tick after an idle period above the timeout.  All three leading speaker-1
fragments end up in the first written line. -/
theorem merge_scenario_eval (tmo : ℚ) (a b c d e : String)
    (t1 t2 t3 t4 t5 t6 : ℚ)
    (ha : a ≠ "") (hb : b ≠ "") (hc : c ≠ "") (hd : d ≠ "") (he : e ≠ "")
    (h12 : t2 - t1 ≤ tmo) (h23 : t3 - t2 ≤ tmo) (h56 : t6 - t5 > tmo) :
    ((run ⟨true, tmo⟩ ⟨none⟩
        [.msg t1 ⟨a, "", some 1, none⟩,
         .msg t2 ⟨b, "", some 1, none⟩,
         .msg t3 ⟨c, "", some 1, none⟩,
         .msg t4 ⟨d, "", some 2, none⟩,
         .msg t5 ⟨e, "", some 1, none⟩,
         .tick t6]).1.map (fun w => (w.speaker_id, w.text)) =
      [(some 1, a ++ " " ++ b ++ " " ++ c), (some 2, d), (some 1, e)]) := by
  have h12n : ¬(t2 - t1 > tmo) := not_lt.mpr h12
  have h23n : ¬(t3 - t2 > tmo) := not_lt.mpr h23
  simp only [run, loop_step, timeout_flush, process_data, flush_buffer]
  simp only [ha, hb, hc, hd, he, h12n, h23n, h56, if_true, if_false,
    ite_false, ite_true, reduceIte, reduceCtorEq]
  by_cases h34 : t4 - t3 > tmo
  · simp only [h34, reduceIte, reduceCtorEq]
    by_cases h45 : t5 - t4 > tmo
    · simp only [h45, reduceIte, reduceCtorEq]
      simp [String.intercalate, String.intercalate.go, String.append_assoc]
    · simp only [h45, reduceIte, reduceCtorEq]
      simp [String.intercalate, String.intercalate.go, String.append_assoc]
  · simp only [h34, reduceIte, reduceCtorEq]
    by_cases h45 : t5 - t4 > tmo
    · simp only [h45, reduceIte, reduceCtorEq]
      simp [String.intercalate, String.intercalate.go, String.append_assoc]
    · simp only [h45, reduceIte, reduceCtorEq]
      simp [String.intercalate, String.intercalate.go, String.append_assoc]

end TranscriptWriter

/-- Claim C3 (counterexample): with merging enabled and speaker_timeout = 5,
feeding three consecutive speaker-1 inputs "a", "b", "c", then "d" from
speaker 2, then "e" from speaker 1 followed by an idle period longer than the
timeout (with a polling tick), writes exactly three lines in order — but the
first line concatenates all three of speaker-1's leading inputs, not only the
first two: it reads "a b c", which differs from "a b". -/
theorem claim_C3_first_line_holds_three_inputs :
    ((TranscriptWriter.run ⟨true, 5⟩ ⟨none⟩
        [.msg 0 ⟨"a", "", some 1, none⟩,
         .msg 1 ⟨"b", "", some 1, none⟩,
         .msg 2 ⟨"c", "", some 1, none⟩,
         .msg 3 ⟨"d", "", some 2, none⟩,
         .msg 4 ⟨"e", "", some 1, none⟩,
         .tick 11]).1.map
      (fun w => (w.speaker_id, w.text)) =
      [(some 1, "a b c"), (some 2, "d"), (some 1, "e")]) ∧
    "a b c" ≠ "a b" := by
  constructor
  · exact TranscriptWriter.merge_scenario_eval 5 "a" "b" "c" "d" "e" 0 1 2 3 4 11
      (by decide) (by decide) (by decide) (by decide) (by decide)
      (by norm_num) (by norm_num) (by norm_num)
  · decide

/-- Claim C3 (amended): with segment merging enabled, feeding the Transcript
Merger three consecutive inputs from speaker 1, then one input from speaker 2,
then one more input from speaker 1 followed by an idle period longer than
speaker_timeout (with a polling tick), produces exactly three written lines,
in that order, with all three of speaker-1's first inputs concatenated into
one line.  Arrival instants must not leave an idle gap above the timeout
inside the leading speaker-1 streak. -/
theorem claim_C3_merge_scenario (tmo : ℚ) (a b c d e : String)
    (t1 t2 t3 t4 t5 t6 : ℚ)
    (ha : a ≠ "") (hb : b ≠ "") (hc : c ≠ "") (hd : d ≠ "") (he : e ≠ "")
    (h12 : t2 - t1 ≤ tmo) (h23 : t3 - t2 ≤ tmo) (h56 : t6 - t5 > tmo) :
    ((TranscriptWriter.run ⟨true, tmo⟩ ⟨none⟩
        [.msg t1 ⟨a, "", some 1, none⟩,
         .msg t2 ⟨b, "", some 1, none⟩,
         .msg t3 ⟨c, "", some 1, none⟩,
         .msg t4 ⟨d, "", some 2, none⟩,
         .msg t5 ⟨e, "", some 1, none⟩,
         .tick t6]).1.map (fun w => (w.speaker_id, w.text)) =
      [(some 1, a ++ " " ++ b ++ " " ++ c), (some 2, d), (some 1, e)]) :=
  TranscriptWriter.merge_scenario_eval tmo a b c d e t1 t2 t3 t4 t5 t6
    ha hb hc hd he h12 h23 h56

/-- Claim C3 witness: the amended merge scenario evaluated at concrete texts
and unit-spaced timestamps with speaker_timeout = 5. -/
theorem claim_C3_merge_scenario_witness :
    ((TranscriptWriter.run ⟨true, 5⟩ ⟨none⟩
        [.msg 0 ⟨"xin", "", some 1, none⟩,
         .msg 1 ⟨"chao", "", some 1, none⟩,
         .msg 2 ⟨"ban", "", some 1, none⟩,
         .msg 3 ⟨"toi khoe", "", some 2, none⟩,
         .msg 4 ⟨"rat vui", "", some 1, none⟩,
         .tick 11]).1.map (fun w => (w.speaker_id, w.text)) =
      [(some 1, "xin" ++ " " ++ "chao" ++ " " ++ "ban"), (some 2, "toi khoe"),
        (some 1, "rat vui")]) :=
  claim_C3_merge_scenario 5 "xin" "chao" "ban" "toi khoe" "rat vui" 0 1 2 3 4 11
    (by decide) (by decide) (by decide) (by decide) (by decide)
    (by norm_num) (by norm_num) (by norm_num)

/-! ### Context-aware translation cache (src/translation/context_translator.py)

ContextTranslator composes a memoized-translation store with TTL and capacity
eviction (self.translation_cache, keyed by md5 of the source text) and
per-speaker rolling context deques (self.speaker_contexts plus
self.global_context_buffer).  The md5 collaborator is the function parameter
`hashText`; the translation collaborator (the subclass's
translate_with_context) is the function parameter `translate`; wall-clock
reads are the explicit `now` parameter and the measured inference latency the
explicit `lat` parameter. -/

namespace Translator

/-- The metrics counter dict self.metrics. -/
structure Metrics where
  total_translations : Nat
  cache_hits : Nat
  cache_misses : Nat
  total_latency : ℚ
  with_context : Nat
  without_context : Nat
  deriving DecidableEq, Repr

/-- A (source_text, translated_text, timestamp) entry of a context buffer. -/
structure ContextEntry where
  source : String
  target : String
  timestamp : ℚ
  deriving DecidableEq, Repr

/-- The configuration read in ContextTranslator.__init__. -/
structure TranslatorConfig where
  context_enabled : Bool
  context_buffer_size : Nat
  max_context_length : Nat
  include_source : Bool
  include_target : Bool
  cache_enabled : Bool
  cache_max_size : Nat
  cache_ttl : ℚ
  deriving DecidableEq, Repr

/-- The defaults of ContextTranslator.__init__. -/
def defaultConfig : TranslatorConfig :=
  ⟨true, 5, 200, true, true, true, 1000, 3600⟩

/-- The mutable state of a ContextTranslator instance. -/
structure TranslatorState where
  speaker_contexts : List (Nat × List ContextEntry)
  global_context_buffer : List ContextEntry
  current_speaker_id : Option Nat
  translation_cache : List (String × String × ℚ)
  metrics : Metrics
  deriving DecidableEq, Repr

/-- The empty state set up in __init__. -/
def initialState : TranslatorState := ⟨[], [], none, [], ⟨0, 0, 0, 0, 0, 0⟩⟩

/-- ContextTranslator._get_from_cache at instant `now`: a fresh entry is a hit
(counter incremented, entry untouched); an entry at or beyond the ttl is
deleted and counted as a miss; an absent key is a miss. -/
def get_from_cache (cfg : TranslatorConfig) (hashText : String → String)
    (st : TranslatorState) (now : ℚ) (text : String) :
    Option String × TranslatorState :=
  if cfg.cache_enabled = false then (none, st)
  else
    match lookupKey (hashText text) st.translation_cache with
    | some (translation, timestamp) =>
      if now - timestamp < cfg.cache_ttl then
        (some translation,
          { st with metrics :=
              { st.metrics with cache_hits := st.metrics.cache_hits + 1 } })
      else
        (none,
          { st with
              translation_cache := eraseKey (hashText text) st.translation_cache,
              metrics :=
                { st.metrics with cache_misses := st.metrics.cache_misses + 1 } })
    | none =>
      (none,
        { st with metrics :=
            { st.metrics with cache_misses := st.metrics.cache_misses + 1 } })

/-- Stable ascending insertion by timestamp, matching Python's stable
sorted(..., key=lambda x: x[1][1]) on the insertion-ordered items. -/
def insertByTimestamp (p : String × String × ℚ) :
    List (String × String × ℚ) → List (String × String × ℚ)
  | [] => [p]
  | q :: rest =>
    if q.2.2 ≤ p.2.2 then q :: insertByTimestamp p rest else p :: q :: rest

/-- Python's sorted(items, key=timestamp) (stable). -/
def sortByTimestamp : List (String × String × ℚ) → List (String × String × ℚ)
  | [] => []
  | p :: rest => insertByTimestamp p (sortByTimestamp rest)

/-- ContextTranslator._add_to_cache at instant `now`: when the cache has
reached max_size, the oldest max(1, max_size // 10) entries (by timestamp) are
deleted first; then the new pair is stored under the text's hash. -/
def add_to_cache (cfg : TranslatorConfig) (hashText : String → String)
    (st : TranslatorState) (now : ℚ) (text translation : String) :
    TranslatorState :=
  if cfg.cache_enabled = false then st
  else
    let cache1 :=
      if cfg.cache_max_size ≤ st.translation_cache.length then
        let removed :=
          ((sortByTimestamp st.translation_cache).take
            (max 1 (cfg.cache_max_size / 10))).map (fun p => p.1)
        st.translation_cache.filter (fun p => ¬(p.1 ∈ removed))
      else st.translation_cache
    { st with
        translation_cache := setKey (hashText text) (translation, now) cache1 }

/-- ContextTranslator._get_speaker_context_buffer, read-only view: the
per-speaker deque, or the global fallback when no speaker id is present.  (The
Python version inserts an empty deque for a first-seen speaker; an absent key
and an empty deque are observationally the same buffer.) -/
def get_speaker_context_buffer (st : TranslatorState)
    (speaker_id : Option Nat) : List ContextEntry :=
  match speaker_id with
  | none => st.global_context_buffer
  | some sid => (lookupKey sid st.speaker_contexts).getD []

/-- The formatted "EN: source | VI: target" fragment of one context entry. -/
def format_part (cfg : TranslatorConfig) (e : ContextEntry) : String :=
  let part := if cfg.include_source then "EN: " ++ e.source else ""
  if cfg.include_target then
    (if part ≠ "" then part ++ " | " else part) ++ "VI: " ++ e.target
  else part

/-- The selection loop of _build_context_string: walk the entries from most
recent to oldest, stop at the first fragment that would push the accumulated
length beyond max_context_length, and keep the selected fragments in
chronological order (each accepted fragment is inserted at the front). -/
def select_context_parts (cfg : TranslatorConfig) :
    List ContextEntry → Nat → List String
  | [], _ => []
  | e :: rest, total =>
    let part := format_part cfg e
    if cfg.max_context_length < total + part.length then []
    else select_context_parts cfg rest (total + part.length) ++ [part]

/-- ContextTranslator._build_context_string for a given speaker. -/
def build_context_string (cfg : TranslatorConfig) (st : TranslatorState)
    (speaker_id : Option Nat) : String :=
  if cfg.context_enabled = false then ""
  else
    let context_buffer := get_speaker_context_buffer st speaker_id
    if context_buffer = [] then ""
    else String.intercalate " || " (select_context_parts cfg context_buffer.reverse 0)

/-- ContextTranslator._add_to_context at instant `now`: append the pair to the
owning speaker's deque (creating it on first use), or to the global fallback
deque when no speaker id is present; no-op when context is disabled. -/
def add_to_context (cfg : TranslatorConfig) (st : TranslatorState) (now : ℚ)
    (source target : String) (speaker_id : Option Nat) : TranslatorState :=
  if cfg.context_enabled = false then st
  else
    match speaker_id with
    | none =>
      let buf := dequeAppend cfg.context_buffer_size st.global_context_buffer
        ⟨source, target, now⟩
      { st with global_context_buffer := buf }
    | some sid =>
      let buf := dequeAppend cfg.context_buffer_size
        ((lookupKey sid st.speaker_contexts).getD []) ⟨source, target, now⟩
      { st with speaker_contexts := setKey sid buf st.speaker_contexts }

/-- An element of the asr_output queue: either a plain string or a dict with
text, speaker_id and timestamp. -/
inductive ASRInput : Type
  | str (s : String)
  | dict (text : String) (speaker_id : Option Nat) (timestamp : Option ℚ)
  deriving DecidableEq, Repr

/-- The text field extracted in ContextTranslator.loop. -/
def input_text : ASRInput → String
  | .str s => s
  | .dict t _ _ => t

/-- The speaker_id extracted in ContextTranslator.loop (None for a plain
string input). -/
def input_speaker : ASRInput → Option Nat
  | .str _ => none
  | .dict _ sid _ => sid

/-- The timestamp extracted in ContextTranslator.loop (time.time() = now for a
plain string input; the dict's possibly absent field otherwise). -/
def input_timestamp (now : ℚ) : ASRInput → Option ℚ
  | .str _ => some now
  | .dict _ _ ts => ts

/-- Python's guard `if not text or len(text.strip()) == 0` holds exactly when
every character of the text is whitespace (vacuously for the empty string). -/
def blank_text (text : String) : Bool := text.data.all Char.isWhitespace

/-- The dict pushed to the tts_input and ui_input queues. -/
structure TransOutput where
  text : String
  speaker_id : Option Nat
  timestamp : Option ℚ
  deriving DecidableEq, Repr

/-- The dict pushed to the transcript_input queue. -/
structure TranscriptData where
  text : String
  original : String
  speaker_id : Option Nat
  timestamp : Option ℚ
  deriving DecidableEq, Repr

/-- The observable result of one iteration of ContextTranslator.loop: the new
state, the message put on tts_input and ui_input (at most one), the message
put on transcript_input (at most one, only when that queue exists), and
whether the translation collaborator was invoked. -/
structure LoopResult where
  state : TranslatorState
  outputs : List TransOutput
  transcript_outputs : List TranscriptData
  invoked : Bool
  deriving DecidableEq, Repr

/-- One iteration of ContextTranslator.loop on a received input at instant
`now`, with `lat` the measured latency of an inference call and
`hasTranscript` whether the transcript_input queue has been created.  Empty or
whitespace-only text returns before touching any state.  The cached
translation is used only when truthy (non-None and non-empty); otherwise the
collaborator is invoked and the result cached.  Either way the pair is then
appended to the incoming speaker's context buffer and the output dicts are
emitted. -/
def loop (cfg : TranslatorConfig) (hashText : String → String)
    (translate : String → String) (hasTranscript : Bool)
    (st : TranslatorState) (now lat : ℚ) (input : ASRInput) : LoopResult :=
  let text := input_text input
  let speaker_id := input_speaker input
  let timestamp := input_timestamp now input
  if blank_text text = true then ⟨st, [], [], false⟩
  else
    -- speaker-change tracking: current_speaker_id := speaker_id (the guard
    -- `if speaker_id != self.current_speaker_id` only gates a debug log)
    let st1 := { st with current_speaker_id := speaker_id }
    let st2 := { st1 with metrics :=
        { st1.metrics with
            total_translations := st1.metrics.total_translations + 1 } }
    let cached := get_from_cache cfg hashText st2 now text
    -- Python truthiness of `if cached_translation:`
    if cached.1.getD "" ≠ "" then
      let translated := cached.1.getD ""
      let st3 := add_to_context cfg cached.2 now text translated speaker_id
      ⟨st3, [⟨translated, speaker_id, timestamp⟩],
        (if hasTranscript then [⟨translated, text, speaker_id, timestamp⟩] else []),
        false⟩
    else
      let context := build_context_string cfg cached.2 speaker_id
      let st3 :=
        if 0 < context.length then
          { cached.2 with metrics :=
              { cached.2.metrics with
                  with_context := cached.2.metrics.with_context + 1 } }
        else
          { cached.2 with metrics :=
              { cached.2.metrics with
                  without_context := cached.2.metrics.without_context + 1 } }
      let translated := translate text
      let st4 := { st3 with metrics :=
          { st3.metrics with total_latency := st3.metrics.total_latency + lat } }
      let st5 := add_to_cache cfg hashText st4 now text translated
      let st6 := add_to_context cfg st5 now text translated speaker_id
      ⟨st6, [⟨translated, speaker_id, timestamp⟩],
        (if hasTranscript then [⟨translated, text, speaker_id, timestamp⟩] else []),
        true⟩

/-- Adding a context pair never touches the translation cache. -/
theorem add_to_context_translation_cache (cfg : TranslatorConfig)
    (st : TranslatorState) (now : ℚ) (source target : String)
    (speaker_id : Option Nat) :
    (add_to_context cfg st now source target speaker_id).translation_cache =
      st.translation_cache := by
  rcases speaker_id with _ | sid <;>
    by_cases h : cfg.context_enabled = false <;> simp [add_to_context, h]

/-- Adding a context pair never touches the metrics counters. -/
theorem add_to_context_metrics (cfg : TranslatorConfig)
    (st : TranslatorState) (now : ℚ) (source target : String)
    (speaker_id : Option Nat) :
    (add_to_context cfg st now source target speaker_id).metrics = st.metrics := by
  rcases speaker_id with _ | sid <;>
    by_cases h : cfg.context_enabled = false <;> simp [add_to_context, h]

/-- Inserting into the cache never touches the metrics counters. -/
theorem add_to_cache_metrics (cfg : TranslatorConfig)
    (hashText : String → String) (st : TranslatorState) (now : ℚ)
    (text translation : String) :
    (add_to_cache cfg hashText st now text translation).metrics = st.metrics := by
  unfold add_to_cache
  split <;> rfl

/-- After _add_to_cache with the cache enabled, the text's hash is bound to the
new pair stamped `now` (whether or not capacity eviction ran first). -/
theorem add_to_cache_lookup_self (cfg : TranslatorConfig)
    (hashText : String → String) (st : TranslatorState) (now : ℚ)
    (text translation : String) (hen : cfg.cache_enabled = true) :
    lookupKey (hashText text)
        (add_to_cache cfg hashText st now text translation).translation_cache =
      some (translation, now) := by
  simp only [add_to_cache, hen]
  simp only [Bool.true_eq_false, if_false, reduceIte]
  exact lookupKey_setKey_self _ _ _

/-- _get_from_cache on an absent key: a counted miss, no other state change. -/
theorem get_from_cache_absent (cfg : TranslatorConfig)
    (hashText : String → String) (st : TranslatorState) (now : ℚ)
    (text : String) (hen : cfg.cache_enabled = true)
    (habsent : lookupKey (hashText text) st.translation_cache = none) :
    get_from_cache cfg hashText st now text =
      (none, { st with metrics :=
          { st.metrics with cache_misses := st.metrics.cache_misses + 1 } }) := by
  simp only [get_from_cache, hen, Bool.true_eq_false, if_false, reduceIte, habsent]

/-- _get_from_cache on a fresh entry: a counted hit, the stored pair returned
and left exactly as it was (in particular its timestamp is not refreshed). -/
theorem get_from_cache_hit (cfg : TranslatorConfig)
    (hashText : String → String) (st : TranslatorState) (now : ℚ)
    (text translation : String) (timestamp : ℚ)
    (hen : cfg.cache_enabled = true)
    (hlook : lookupKey (hashText text) st.translation_cache =
      some (translation, timestamp))
    (hfresh : now - timestamp < cfg.cache_ttl) :
    get_from_cache cfg hashText st now text =
      (some translation, { st with metrics :=
          { st.metrics with cache_hits := st.metrics.cache_hits + 1 } }) := by
  simp only [get_from_cache, hen, Bool.true_eq_false, if_false, reduceIte, hlook]
  rw [if_pos hfresh]

/-- One loop iteration on non-blank text whose hash is absent from the cache:
the collaborator is invoked, its result is emitted and cached under the
current instant, and the hit counter is untouched. -/
theorem loop_absent_result (cfg : TranslatorConfig)
    (hashText translate : String → String) (hasTranscript : Bool)
    (st : TranslatorState) (now lat : ℚ) (input : ASRInput)
    (hen : cfg.cache_enabled = true)
    (htext : blank_text (input_text input) = false)
    (habsent : lookupKey (hashText (input_text input)) st.translation_cache = none) :
    (loop cfg hashText translate hasTranscript st now lat input).outputs =
      [⟨translate (input_text input), input_speaker input,
        input_timestamp now input⟩] ∧
    (loop cfg hashText translate hasTranscript st now lat input).invoked = true ∧
    lookupKey (hashText (input_text input))
      (loop cfg hashText translate hasTranscript st now lat input).state.translation_cache
      = some (translate (input_text input), now) ∧
    (loop cfg hashText translate hasTranscript st now lat input).state.metrics.cache_hits
      = st.metrics.cache_hits := by
  have hne : ¬(blank_text (input_text input) = true) := by simp [htext]
  simp only [loop]
  rw [if_neg hne, get_from_cache_absent cfg hashText
      ⟨st.speaker_contexts, st.global_context_buffer, input_speaker input,
        st.translation_cache,
        ⟨st.metrics.total_translations + 1, st.metrics.cache_hits,
          st.metrics.cache_misses, st.metrics.total_latency,
          st.metrics.with_context, st.metrics.without_context⟩⟩
      now (input_text input) hen habsent]
  simp only [Option.getD_none, ne_eq, not_true_eq_false, if_false, reduceIte,
    add_to_context_translation_cache, add_to_context_metrics, apply_ite,
    add_to_cache_metrics, ite_self]
  refine ⟨trivial, trivial, ?_, trivial⟩
  exact add_to_cache_lookup_self cfg hashText _ now _ _ hen

/-- One loop iteration on non-blank text with a fresh, non-empty cached
translation: the cached value is emitted, the collaborator is not invoked, and
the hit counter increments by exactly one. -/
theorem loop_hit_result (cfg : TranslatorConfig)
    (hashText translate : String → String) (hasTranscript : Bool)
    (st : TranslatorState) (now lat : ℚ) (input : ASRInput)
    (translation : String) (timestamp : ℚ)
    (hen : cfg.cache_enabled = true)
    (htext : blank_text (input_text input) = false)
    (hlook : lookupKey (hashText (input_text input)) st.translation_cache =
      some (translation, timestamp))
    (hfresh : now - timestamp < cfg.cache_ttl)
    (htr : translation ≠ "") :
    (loop cfg hashText translate hasTranscript st now lat input).outputs =
      [⟨translation, input_speaker input, input_timestamp now input⟩] ∧
    (loop cfg hashText translate hasTranscript st now lat input).invoked = false ∧
    (loop cfg hashText translate hasTranscript st now lat input).state.metrics.cache_hits
      = st.metrics.cache_hits + 1 := by
  have hne : ¬(blank_text (input_text input) = true) := by simp [htext]
  simp only [loop]
  rw [if_neg hne, get_from_cache_hit cfg hashText
      ⟨st.speaker_contexts, st.global_context_buffer, input_speaker input,
        st.translation_cache,
        ⟨st.metrics.total_translations + 1, st.metrics.cache_hits,
          st.metrics.cache_misses, st.metrics.total_latency,
          st.metrics.with_context, st.metrics.without_context⟩⟩
      now (input_text input) translation timestamp hen hlook hfresh]
  simp only [Option.getD_some, ne_eq, htr, not_false_iff, if_true, reduceIte,
    add_to_context_metrics]
  exact ⟨trivial, trivial, trivial⟩

/-- One loop iteration on non-blank text with a fresh cached translation that
is the EMPTY string: Python's truthiness test rejects it and the collaborator
is invoked again. -/
theorem loop_hit_empty_invoked (cfg : TranslatorConfig)
    (hashText translate : String → String) (hasTranscript : Bool)
    (st : TranslatorState) (now lat : ℚ) (input : ASRInput) (timestamp : ℚ)
    (hen : cfg.cache_enabled = true)
    (htext : blank_text (input_text input) = false)
    (hlook : lookupKey (hashText (input_text input)) st.translation_cache =
      some ("", timestamp))
    (hfresh : now - timestamp < cfg.cache_ttl) :
    (loop cfg hashText translate hasTranscript st now lat input).invoked = true := by
  have hne : ¬(blank_text (input_text input) = true) := by simp [htext]
  simp only [loop]
  rw [if_neg hne, get_from_cache_hit cfg hashText
      ⟨st.speaker_contexts, st.global_context_buffer, input_speaker input,
        st.translation_cache,
        ⟨st.metrics.total_translations + 1, st.metrics.cache_hits,
          st.metrics.cache_misses, st.metrics.total_latency,
          st.metrics.with_context, st.metrics.without_context⟩⟩
      now (input_text input) "" timestamp hen hlook hfresh]
  simp

end Translator

/-- A key outside the key set of an association list has no binding. -/
theorem lookupKey_eq_none_of_not_mem {K V : Type} [DecidableEq K] (k : K)
    (l : List (K × V)) (h : k ∉ l.map Prod.fst) : lookupKey k l = none := by
  induction l with
  | nil => rfl
  | cons p rest ih =>
    simp only [List.map_cons, List.mem_cons, not_or] at h
    have hp : p.1 ≠ k := fun he => h.1 he.symm
    simp [lookupKey, hp, ih h.2]

/-- Deleting a key from a duplicate-free association list removes its binding
entirely. -/
theorem lookupKey_eraseKey_self {K V : Type} [DecidableEq K] (k : K)
    (l : List (K × V)) (hnodup : (l.map Prod.fst).Nodup) :
    lookupKey k (eraseKey k l) = none := by
  induction l with
  | nil => rfl
  | cons p rest ih =>
    simp only [List.map_cons, List.nodup_cons] at hnodup
    by_cases hp : p.1 = k
    · rw [eraseKey, if_pos hp]
      subst hp
      exact lookupKey_eq_none_of_not_mem _ _ hnodup.1
    · rw [eraseKey, if_neg hp, lookupKey, if_neg hp]
      exact ih hnodup.2

/-- Claim C10: a message whose text is empty or whitespace-only makes the
translation stage's loop iteration produce no output on any queue and leave
the entire state — metrics counters, translation cache, every context buffer
(and the current-speaker marker) — exactly as it was, without invoking the
collaborator. -/
theorem claim_C10_blank_input_is_noop (cfg : Translator.TranslatorConfig)
    (hashText translate : String → String) (hasTranscript : Bool)
    (st : Translator.TranslatorState) (now lat : ℚ)
    (input : Translator.ASRInput)
    (hblank : Translator.blank_text (Translator.input_text input) = true) :
    Translator.loop cfg hashText translate hasTranscript st now lat input =
      ⟨st, [], [], false⟩ := by
  simp only [Translator.loop]
  rw [if_pos hblank]

/-- Claim C10 witness: a whitespace-only dict message at the default
configuration leaves the initial state untouched and emits nothing. -/
theorem claim_C10_blank_input_is_noop_witness :
    Translator.loop Translator.defaultConfig (fun s => s) (fun s => s) true
      Translator.initialState 7 1 (.dict "   " (some 3) none) =
      ⟨Translator.initialState, [], [], false⟩ :=
  claim_C10_blank_input_is_noop Translator.defaultConfig (fun s => s)
    (fun s => s) true Translator.initialState 7 1 (.dict "   " (some 3) none)
    (by decide)

/-- Claim C8: context entries appended for speaker A never appear in the
context string built for a different speaker B (including the case where one
of the two is the shared global buffer used when the speaker id is none): the
context string built for B is unchanged by A's append. -/
theorem claim_C8_context_isolation (cfg : Translator.TranslatorConfig)
    (st : Translator.TranslatorState) (now : ℚ) (source target : String)
    (A B : Option Nat) (hAB : A ≠ B) :
    Translator.build_context_string cfg
        (Translator.add_to_context cfg st now source target A) B =
      Translator.build_context_string cfg st B := by
  by_cases hctx : cfg.context_enabled = false
  · simp [Translator.add_to_context, hctx]
  · rcases A with _ | a
    · rcases B with _ | b
      · exact absurd rfl hAB
      · simp [Translator.add_to_context, Translator.build_context_string,
          Translator.get_speaker_context_buffer, hctx]
    · rcases B with _ | b
      · simp [Translator.add_to_context, Translator.build_context_string,
          Translator.get_speaker_context_buffer, hctx]
      · have hab : a ≠ b := fun h => hAB (by rw [h])
        simp [Translator.add_to_context, Translator.build_context_string,
          Translator.get_speaker_context_buffer, hctx,
          lookupKey_setKey_ne a b _ _ hab]

/-- Claim C8 witness: an entry appended for speaker 1 leaves speaker 2's
context string as it was. -/
theorem claim_C8_context_isolation_witness :
    Translator.build_context_string Translator.defaultConfig
        (Translator.add_to_context Translator.defaultConfig
          Translator.initialState 3 "hello" "xin chao" (some 1)) (some 2) =
      Translator.build_context_string Translator.defaultConfig
        Translator.initialState (some 2) :=
  claim_C8_context_isolation Translator.defaultConfig Translator.initialState
    3 "hello" "xin chao" (some 1) (some 2) (by decide)

/-- Claim C9: a cache hit does not refresh the stored entry's timestamp and
leaves the stored (translation, timestamp) pair — indeed the whole cache —
unchanged; on every lookup after timestamp + ttl the entry is treated as
expired (the lookup misses) and is removed.  The duplicate-free-keys
hypothesis is the run invariant of the backing Python dict (cache keys are
unique per run). -/
theorem claim_C9_lookup_frame_and_lazy_expiry
    (cfg : Translator.TranslatorConfig) (hashText : String → String)
    (st : Translator.TranslatorState) (text translation : String)
    (timestamp now1 now2 : ℚ)
    (hen : cfg.cache_enabled = true)
    (hnodup : (st.translation_cache.map Prod.fst).Nodup)
    (hlook : lookupKey (hashText text) st.translation_cache =
      some (translation, timestamp))
    (hfresh : now1 - timestamp < cfg.cache_ttl)
    (hstale : timestamp + cfg.cache_ttl < now2) :
    (Translator.get_from_cache cfg hashText st now1 text =
      (some translation, { st with metrics :=
          { st.metrics with cache_hits := st.metrics.cache_hits + 1 } })) ∧
    ((Translator.get_from_cache cfg hashText st now2 text).1 = none ∧
      lookupKey (hashText text)
        (Translator.get_from_cache cfg hashText st now2 text).2.translation_cache
        = none) := by
  constructor
  · exact Translator.get_from_cache_hit cfg hashText st now1 text translation
      timestamp hen hlook hfresh
  · have hstale2 : ¬(now2 - timestamp < cfg.cache_ttl) := by
      push_neg
      linarith
    have hexp : Translator.get_from_cache cfg hashText st now2 text =
        (none, { st with
            translation_cache := eraseKey (hashText text) st.translation_cache,
            metrics := { st.metrics with
              cache_misses := st.metrics.cache_misses + 1 } }) := by
      simp only [Translator.get_from_cache, hen, Bool.true_eq_false, if_false,
        reduceIte, hlook]
      rw [if_neg hstale2]
    rw [hexp]
    exact ⟨rfl, lookupKey_eraseKey_self _ _ hnodup⟩

/-- Claim C9 witness: a cache holding the pair "xin chao" stamped at time 0
with ttl 3600, looked up at time 10 (hit, unchanged) and at time 4000
(expired, removed). -/
theorem claim_C9_lookup_frame_and_lazy_expiry_witness :
    (Translator.get_from_cache Translator.defaultConfig (fun s => s)
        ⟨[], [], none, [("hello", "xin chao", 0)], ⟨5, 1, 2, 0, 0, 0⟩⟩ 10 "hello" =
      (some "xin chao",
        ⟨[], [], none, [("hello", "xin chao", 0)], ⟨5, 2, 2, 0, 0, 0⟩⟩)) ∧
    ((Translator.get_from_cache Translator.defaultConfig (fun s => s)
        ⟨[], [], none, [("hello", "xin chao", 0)], ⟨5, 1, 2, 0, 0, 0⟩⟩ 4000
        "hello").1 = none ∧
      lookupKey "hello"
        (Translator.get_from_cache Translator.defaultConfig (fun s => s)
          ⟨[], [], none, [("hello", "xin chao", 0)], ⟨5, 1, 2, 0, 0, 0⟩⟩ 4000
          "hello").2.translation_cache = none) :=
  claim_C9_lookup_frame_and_lazy_expiry Translator.defaultConfig (fun s => s)
    ⟨[], [], none, [("hello", "xin chao", 0)], ⟨5, 1, 2, 0, 0, 0⟩⟩
    "hello" "xin chao" 0 10 4000 rfl (by decide) rfl (by norm_num [Translator.defaultConfig])
    (by norm_num [Translator.defaultConfig])

/-- Claim C4 (counterexample): when the collaborator produces the EMPTY
translation for "hello", a second identical request one second later (well
within ttl, no eviction) re-invokes the collaborator: the cached empty string
fails Python's truthiness test `if cached_translation:`, so the claim's
"does not invoke the translation collaborator" is false as stated. -/
theorem claim_C4_empty_translation_reinvokes :
    (Translator.loop Translator.defaultConfig (fun s => s) (fun _ => "") false
      (Translator.loop Translator.defaultConfig (fun s => s) (fun _ => "") false
        Translator.initialState 0 0 (.str "hello")).state
      1 0 (.str "hello")).invoked = true := by
  have h1 := Translator.loop_absent_result Translator.defaultConfig
    (fun s => s) (fun _ => "") false Translator.initialState 0 0 (.str "hello")
    rfl (by decide) rfl
  exact Translator.loop_hit_empty_invoked Translator.defaultConfig
    (fun s => s) (fun _ => "") false _ 1 0 (.str "hello") 0 rfl (by decide)
    h1.2.2.1 (by norm_num [Translator.defaultConfig])

/-- Claim C4 (amended): with the cache enabled, translating the same non-empty
source text a second time within ttl seconds of the first translation of that
text (text not previously cached, no intervening capacity eviction), PROVIDED
the translation the first call produced is non-empty, returns the identical
translation the first call produced, does not invoke the translation
collaborator, and increments the cache-hit counter by exactly one more. -/
theorem claim_C4_cached_second_call (cfg : Translator.TranslatorConfig)
    (hashText translate : String → String) (hasTranscript : Bool)
    (st : Translator.TranslatorState) (now1 now2 lat1 lat2 : ℚ)
    (input1 input2 : Translator.ASRInput) (t : String)
    (ht1 : Translator.input_text input1 = t)
    (ht2 : Translator.input_text input2 = t)
    (hen : cfg.cache_enabled = true)
    (htext : Translator.blank_text t = false)
    (habsent : lookupKey (hashText t) st.translation_cache = none)
    (htr : translate t ≠ "")
    (hfresh : now2 - now1 < cfg.cache_ttl) :
    ((Translator.loop cfg hashText translate hasTranscript st now1 lat1
        input1).outputs.map (fun o => o.text) = [translate t]) ∧
    ((Translator.loop cfg hashText translate hasTranscript
        (Translator.loop cfg hashText translate hasTranscript st now1 lat1
          input1).state now2 lat2 input2).outputs.map (fun o => o.text) =
      [translate t]) ∧
    (Translator.loop cfg hashText translate hasTranscript
        (Translator.loop cfg hashText translate hasTranscript st now1 lat1
          input1).state now2 lat2 input2).invoked = false ∧
    (Translator.loop cfg hashText translate hasTranscript
        (Translator.loop cfg hashText translate hasTranscript st now1 lat1
          input1).state now2 lat2 input2).state.metrics.cache_hits =
      (Translator.loop cfg hashText translate hasTranscript st now1 lat1
        input1).state.metrics.cache_hits + 1 := by
  subst ht1
  obtain ⟨ho1, hi1, hl1, hh1⟩ := Translator.loop_absent_result cfg hashText
    translate hasTranscript st now1 lat1 input1 hen htext habsent
  have htext2 : Translator.blank_text (Translator.input_text input2) = false := by
    rw [ht2]; exact htext
  have hlook2 : lookupKey (hashText (Translator.input_text input2))
      (Translator.loop cfg hashText translate hasTranscript st now1 lat1
        input1).state.translation_cache =
      some (translate (Translator.input_text input1), now1) := by
    rw [ht2]; exact hl1
  obtain ⟨ho2, hi2, hh2⟩ := Translator.loop_hit_result cfg hashText translate
    hasTranscript
    (Translator.loop cfg hashText translate hasTranscript st now1 lat1
      input1).state now2 lat2 input2
    (translate (Translator.input_text input1)) now1 hen htext2 hlook2 hfresh htr
  refine ⟨?_, ?_, hi2, hh2⟩
  · rw [ho1]; simp [ht2]
  · rw [ho2]; simp [ht2]

/-- Claim C4 witness: translating "hello" twice (collaborator answer
"xin chao"), ten seconds apart at the default configuration: the second call's
output repeats the first, the collaborator is not re-invoked, and the hit
counter grows by one. -/
theorem claim_C4_cached_second_call_witness :
    ((Translator.loop Translator.defaultConfig (fun s => s)
        (fun _ => "xin chao") true Translator.initialState 0 2
        (.str "hello")).outputs.map (fun o => o.text) = ["xin chao"]) ∧
    ((Translator.loop Translator.defaultConfig (fun s => s)
        (fun _ => "xin chao") true
        (Translator.loop Translator.defaultConfig (fun s => s)
          (fun _ => "xin chao") true Translator.initialState 0 2
          (.str "hello")).state 10 2 (.str "hello")).outputs.map
      (fun o => o.text) = ["xin chao"]) ∧
    (Translator.loop Translator.defaultConfig (fun s => s)
        (fun _ => "xin chao") true
        (Translator.loop Translator.defaultConfig (fun s => s)
          (fun _ => "xin chao") true Translator.initialState 0 2
          (.str "hello")).state 10 2 (.str "hello")).invoked = false ∧
    (Translator.loop Translator.defaultConfig (fun s => s)
        (fun _ => "xin chao") true
        (Translator.loop Translator.defaultConfig (fun s => s)
          (fun _ => "xin chao") true Translator.initialState 0 2
          (.str "hello")).state 10 2 (.str "hello")).state.metrics.cache_hits =
      (Translator.loop Translator.defaultConfig (fun s => s)
        (fun _ => "xin chao") true Translator.initialState 0 2
        (.str "hello")).state.metrics.cache_hits + 1 :=
  claim_C4_cached_second_call Translator.defaultConfig (fun s => s)
    (fun _ => "xin chao") true Translator.initialState 0 10 2 2
    (.str "hello") (.str "hello") "hello" rfl rfl rfl (by decide) rfl
    (by decide) (by norm_num [Translator.defaultConfig])

/-! ### Speaker identity tracker (src/audio/speaker_diarization.py)

SpeakerDiarizer clusters voice embeddings online.  The embedding type is a
parameter Emb; the external numeric collaborators become function parameters:
`encode` is the Resemblyzer preprocessing + VoiceEncoder.embed_utterance
pipeline of _compute_embedding (returning none when it raises), `sim` is
sklearn's cosine_similarity on two embeddings, and `ema` is the
normalize(alpha * new + (1 - alpha) * old) moving-average kernel (alpha 0.3)
of _update_speaker_embedding.  Audio is a list of float samples; the dict
self.speakers is an insertion-ordered association list; self.stats is
flattened into counter fields. -/

namespace Diarization

/-- The per-speaker record {"embedding": ..., "last_seen": ..., "sample_count": ...}. -/
structure SpeakerData (Emb : Type) where
  embedding : Emb
  last_seen : ℚ
  sample_count : Nat
  deriving DecidableEq, Repr

/-- The configuration of SpeakerDiarizer.__init__. -/
structure DiarizerConfig where
  similarity_threshold : ℚ
  min_duration : ℚ
  max_speakers : Nat
  speaker_timeout : ℚ
  deriving DecidableEq, Repr

/-- The mutable state of a SpeakerDiarizer instance. -/
structure DiarizerState (Emb : Type) where
  speakers : List (Nat × SpeakerData Emb)
  next_speaker_id : Nat
  current_speaker_id : Option Nat
  total_identifications : Nat
  new_speakers_detected : Nat
  speaker_changes : Nat
  deriving DecidableEq, Repr

/-- The fresh state of __init__ (and of reset): no speakers, ids start at 1. -/
def initialState (Emb : Type) : DiarizerState Emb := ⟨[], 1, none, 0, 0, 0⟩

/-- SpeakerDiarizer._compute_embedding: audio shorter than
sample_rate * 0.5 samples (0.5 seconds) yields no embedding; otherwise the
normalization + Resemblyzer collaborator `encode` runs (none on failure).
The configured min_duration is not consulted here. -/
def compute_embedding {Emb : Type} (encode : List ℚ → Option Emb)
    (audio_data : List ℚ) (sample_rate : Nat) : Option Emb :=
  if (audio_data.length : ℚ) < (sample_rate : ℚ) * 0.5 then none
  else encode audio_data

/-- The best-similarity scan of _find_matching_speaker: iterate the tracked
speakers in insertion order, keeping the strictly best similarity (initial
best -1.0, id None). -/
def best_match {Emb : Type} (sim : Emb → Emb → ℚ)
    (speakers : List (Nat × SpeakerData Emb)) (embedding : Emb) :
    Option Nat × ℚ :=
  speakers.foldl
    (fun best p =>
      if best.2 < sim embedding p.2.embedding
      then (some p.1, sim embedding p.2.embedding) else best)
    (none, -1)

/-- SpeakerDiarizer._find_matching_speaker: None when no speakers are tracked;
otherwise the best match if its similarity reaches similarity_threshold, else
None. -/
def find_matching_speaker {Emb : Type} (cfg : DiarizerConfig)
    (sim : Emb → Emb → ℚ) (st : DiarizerState Emb) (embedding : Emb) :
    Option Nat :=
  if st.speakers.isEmpty then none
  else if cfg.similarity_threshold ≤ (best_match sim st.speakers embedding).2
  then (best_match sim st.speakers embedding).1
  else none

/-- SpeakerDiarizer._create_new_speaker at instant `now`: take the next id,
bump the counter, append the new record (dict insertion appends). -/
def create_new_speaker {Emb : Type} (st : DiarizerState Emb) (embedding : Emb)
    (now : ℚ) : Nat × DiarizerState Emb :=
  (st.next_speaker_id,
    { st with
        next_speaker_id := st.next_speaker_id + 1,
        speakers := st.speakers ++ [(st.next_speaker_id, ⟨embedding, now, 1⟩)],
        new_speakers_detected := st.new_speakers_detected + 1 })

/-- SpeakerDiarizer._update_speaker_embedding at instant `now`: guard on
membership, then store the moving-average embedding (the numeric kernel
`ema new old`), refresh last_seen and bump sample_count (update in place). -/
def update_speaker_embedding {Emb : Type} (ema : Emb → Emb → Emb)
    (st : DiarizerState Emb) (speaker_id : Nat) (embedding : Emb) (now : ℚ) :
    DiarizerState Emb :=
  match lookupKey speaker_id st.speakers with
  | none => st
  | some d =>
    { st with speakers :=
        (setKey speaker_id ⟨ema embedding d.embedding, now, d.sample_count + 1⟩
          st.speakers) }

/-- SpeakerDiarizer._cleanup_inactive_speakers at instant `now`: delete every
speaker whose last_seen lies more than speaker_timeout in the past. -/
def cleanup_inactive_speakers {Emb : Type} (cfg : DiarizerConfig)
    (st : DiarizerState Emb) (now : ℚ) : DiarizerState Emb :=
  { st with speakers :=
      (st.speakers.filter (fun p => ¬(cfg.speaker_timeout < now - p.2.last_seen))) }

/-- The tail of identify_speaker once a speaker id has been chosen:
speaker-change tracking, the total_identifications bump, and the periodic
(every 50th identification) inactivity cleanup. -/
def finish_identify {Emb : Type} (cfg : DiarizerConfig) (now : ℚ)
    (speaker_id : Nat) (st1 : DiarizerState Emb) :
    Option Nat × DiarizerState Emb :=
  let st2 :=
    if some speaker_id = st1.current_speaker_id then st1
    else
      { st1 with
          speaker_changes :=
            (if st1.current_speaker_id ≠ none then st1.speaker_changes + 1
              else st1.speaker_changes),
          current_speaker_id := some speaker_id }
  let st3 :=
    { st2 with total_identifications := st2.total_identifications + 1 }
  let st4 :=
    if st3.total_identifications % 50 = 0 then
      cleanup_inactive_speakers cfg st3 now
    else st3
  (some speaker_id, st4)

/-- SpeakerDiarizer.identify_speaker at instant `now`: no embedding returns
None untouched; a thresholded match updates that speaker; otherwise a new
speaker is created while under max_speakers, and at capacity the code
evaluates `self._find_matching_speaker(embedding) or 1` (the re-run matcher
returns None again in this branch, so the Python `or` falls through to 1). -/
def identify_speaker {Emb : Type} (cfg : DiarizerConfig)
    (sim : Emb → Emb → ℚ) (ema : Emb → Emb → Emb)
    (encode : List ℚ → Option Emb) (st : DiarizerState Emb)
    (audio_data : List ℚ) (sample_rate : Nat) (now : ℚ) :
    Option Nat × DiarizerState Emb :=
  match compute_embedding encode audio_data sample_rate with
  | none => (none, st)
  | some embedding =>
    match find_matching_speaker cfg sim st embedding with
    | none =>
      if st.speakers.length < cfg.max_speakers then
        let r := create_new_speaker st embedding now
        finish_identify cfg now r.1 r.2
      else
        finish_identify cfg now
          ((find_matching_speaker cfg sim st embedding).getD 1) st
    | some speaker_id =>
      finish_identify cfg now speaker_id
        (update_speaker_embedding ema st speaker_id embedding now)

/-- The post-processing tail returns exactly the chosen id and never touches
the monotonic id counter. -/
theorem finish_identify_spec {Emb : Type} (cfg : DiarizerConfig) (now : ℚ)
    (speaker_id : Nat) (st1 : DiarizerState Emb) :
    (finish_identify cfg now speaker_id st1).1 = some speaker_id ∧
    (finish_identify cfg now speaker_id st1).2.next_speaker_id =
      st1.next_speaker_id := by
  constructor
  · rfl
  · by_cases h2 : some speaker_id = st1.current_speaker_id <;>
      simp only [finish_identify, cleanup_inactive_speakers, h2, if_true,
        if_false, ite_true, ite_false, eq_self_iff_true, reduceIte] <;>
      split <;> rfl

/-- Updating a matched speaker's embedding never touches the id counter. -/
theorem update_speaker_embedding_next {Emb : Type} (ema : Emb → Emb → Emb)
    (st : DiarizerState Emb) (speaker_id : Nat) (embedding : Emb) (now : ℚ) :
    (update_speaker_embedding ema st speaker_id embedding now).next_speaker_id =
      st.next_speaker_id := by
  unfold update_speaker_embedding
  split <;> rfl

end Diarization

/-- Claim C7: whenever identify_speaker runs, the monotonic id counter never
decreases; and whenever it creates a new speaker (observable as the counter
moving), the returned fresh id equals the old counter value and is strictly
greater than every id assigned earlier in the run (the ghost list `assigned`
collects every id ever handed out, including ids of identities since removed
by inactivity cleanup, all of which sit below the counter), so removed ids
are never reused. -/
theorem claim_C7_fresh_ids_strictly_increase {Emb : Type}
    (cfg : Diarization.DiarizerConfig) (sim : Emb → Emb → ℚ)
    (ema : Emb → Emb → Emb) (encode : List ℚ → Option Emb)
    (st : Diarization.DiarizerState Emb) (assigned : List Nat)
    (audio_data : List ℚ) (sample_rate : Nat) (now : ℚ)
    (hassigned : ∀ i ∈ assigned, i < st.next_speaker_id) :
    (st.next_speaker_id ≤
      (Diarization.identify_speaker cfg sim ema encode st audio_data
        sample_rate now).2.next_speaker_id) ∧
    (∀ i ∈ assigned, i <
      (Diarization.identify_speaker cfg sim ema encode st audio_data
        sample_rate now).2.next_speaker_id) ∧
    ((Diarization.identify_speaker cfg sim ema encode st audio_data
        sample_rate now).2.next_speaker_id ≠ st.next_speaker_id →
      ((Diarization.identify_speaker cfg sim ema encode st audio_data
          sample_rate now).2.next_speaker_id = st.next_speaker_id + 1 ∧
        (Diarization.identify_speaker cfg sim ema encode st audio_data
          sample_rate now).1 = some st.next_speaker_id ∧
        ∀ i ∈ assigned, i < st.next_speaker_id)) := by
  rcases hemb : Diarization.compute_embedding encode audio_data sample_rate
    with _ | e
  · simp only [Diarization.identify_speaker, hemb]
    exact ⟨le_refl _, hassigned, fun h => absurd rfl h⟩
  · simp only [Diarization.identify_speaker, hemb]
    rcases hfind : Diarization.find_matching_speaker cfg sim st e with _ | sid
    · simp only [hfind, Option.getD_none]
      by_cases hcap : st.speakers.length < cfg.max_speakers
      · rw [if_pos hcap]
        have hf := Diarization.finish_identify_spec cfg now
          (Diarization.create_new_speaker st e now).1
          (Diarization.create_new_speaker st e now).2
        have hnext : (Diarization.create_new_speaker st e now).2.next_speaker_id
            = st.next_speaker_id + 1 := rfl
        have hid : (Diarization.create_new_speaker st e now).1
            = st.next_speaker_id := rfl
        rw [hf.2, hnext]
        refine ⟨Nat.le_succ _, ?_, ?_⟩
        · intro i hi
          exact Nat.lt_succ_of_lt (hassigned i hi)
        · intro _
          exact ⟨rfl, by rw [hf.1, hid], hassigned⟩
      · rw [if_neg hcap]
        have hf := Diarization.finish_identify_spec cfg now 1 st
        rw [hf.2]
        exact ⟨le_refl _, hassigned, fun h => absurd rfl h⟩
    · simp only [hfind]
      have hf := Diarization.finish_identify_spec cfg now sid
        (Diarization.update_speaker_embedding ema st sid e now)
      rw [hf.2, Diarization.update_speaker_embedding_next]
      exact ⟨le_refl _, hassigned, fun h => absurd rfl h⟩

/-- Claim C7 witness: a tracker whose counter stands at 3 with only speaker 2
still alive (1 already cleaned up), fed an embedding matching nothing: the new
id 3 is strictly above both previously assigned ids 1 and 2. -/
theorem claim_C7_fresh_ids_strictly_increase_witness :
    ((3 : Nat) ≤
      (Diarization.identify_speaker ⟨3/4, 1, 10, 300⟩ (fun _ _ => 0)
        (fun a _ => a) (fun _ => some (0 : Nat))
        ⟨[(2, ⟨5, 0, 1⟩)], 3, none, 0, 0, 0⟩ [0, 0, 0] 2
        9).2.next_speaker_id) ∧
    (∀ i ∈ [1, 2], i <
      (Diarization.identify_speaker ⟨3/4, 1, 10, 300⟩ (fun _ _ => 0)
        (fun a _ => a) (fun _ => some (0 : Nat))
        ⟨[(2, ⟨5, 0, 1⟩)], 3, none, 0, 0, 0⟩ [0, 0, 0] 2
        9).2.next_speaker_id) ∧
    ((Diarization.identify_speaker ⟨3/4, 1, 10, 300⟩ (fun _ _ => 0)
        (fun a _ => a) (fun _ => some (0 : Nat))
        ⟨[(2, ⟨5, 0, 1⟩)], 3, none, 0, 0, 0⟩ [0, 0, 0] 2
        9).2.next_speaker_id ≠ 3 →
      ((Diarization.identify_speaker ⟨3/4, 1, 10, 300⟩ (fun _ _ => 0)
          (fun a _ => a) (fun _ => some (0 : Nat))
          ⟨[(2, ⟨5, 0, 1⟩)], 3, none, 0, 0, 0⟩ [0, 0, 0] 2
          9).2.next_speaker_id = 3 + 1 ∧
        (Diarization.identify_speaker ⟨3/4, 1, 10, 300⟩ (fun _ _ => 0)
          (fun a _ => a) (fun _ => some (0 : Nat))
          ⟨[(2, ⟨5, 0, 1⟩)], 3, none, 0, 0, 0⟩ [0, 0, 0] 2
          9).1 = some 3 ∧
        ∀ i ∈ [1, 2], i < 3)) :=
  claim_C7_fresh_ids_strictly_increase ⟨3/4, 1, 10, 300⟩ (fun _ _ => 0)
    (fun a _ => a) (fun _ => some (0 : Nat))
    ⟨[(2, ⟨5, 0, 1⟩)], 3, none, 0, 0, 0⟩ [1, 2] [0, 0, 0] 2 9
    (by decide)

/-- The failing configuration for claim C1: threshold 0.75, at most two
speakers. -/
def cfgC1 : Diarization.DiarizerConfig := ⟨3/4, 1, 2, 300⟩

/-- The failing similarity collaborator for claim C1: the incoming embedding 0
scores 0.5 against speaker 1's embedding 10 and 0.7 against speaker 2's
embedding 20 — both below the 0.75 threshold, speaker 2 clearly best. -/
def simC1 : Nat → Nat → ℚ := fun a b =>
  if a = 0 ∧ b = 10 then 1/2 else if a = 0 ∧ b = 20 then 7/10 else 0

/-- The failing state for claim C1: two tracked speakers, at capacity. -/
def stC1 : Diarization.DiarizerState Nat :=
  ⟨[(1, ⟨10, 0, 1⟩), (2, ⟨20, 0, 1⟩)], 3, none, 0, 0, 0⟩

/-- Claim C1 (code evaluated at the failing input): at capacity with no
threshold-reaching match, identify_speaker returns speaker 1 — not the best
sub-threshold match, which is speaker 2 (similarity 0.7 < threshold 0.75).
The expression `self._find_matching_speaker(embedding) or 1` re-runs the
thresholded matcher, which returns None again, so the fallback is always the
constant 1, contradicting the claim, the spec and the code's own comment. -/
theorem claim_C1_capacity_fallback_returns_one :
    (Diarization.identify_speaker cfgC1 simC1 (fun a _ => a)
      (fun _ => some 0) stC1 (List.replicate 8000 0) 16000 5).1 = some 1 ∧
    (Diarization.best_match simC1 stC1.speakers 0).1 = some 2 ∧
    (Diarization.best_match simC1 stC1.speakers 0).2 <
      cfgC1.similarity_threshold := by
  have hemb : Diarization.compute_embedding (fun _ => some (0 : Nat))
      (List.replicate 8000 0) 16000 = some 0 := by
    unfold Diarization.compute_embedding
    rw [if_neg]
    simp only [List.length_replicate]
    norm_num
  have hbm : Diarization.best_match simC1 stC1.speakers 0 = (some 2, 7/10) := by
    norm_num [Diarization.best_match, stC1, simC1, List.foldl]
  have hfind : Diarization.find_matching_speaker cfgC1 simC1 stC1 0 = none := by
    rw [Diarization.find_matching_speaker, hbm]
    norm_num [stC1, cfgC1, List.isEmpty]
  have hcap : ¬(stC1.speakers.length < cfgC1.max_speakers) := by
    norm_num [stC1, cfgC1]
  refine ⟨?_, ?_, ?_⟩
  · simp only [Diarization.identify_speaker, hemb, hfind]
    rw [if_neg hcap]
    rfl
  · rw [hbm]
  · rw [hbm]
    norm_num [cfgC1]

/-- The configuration for claim C5's counterexample: configured min_duration
of 1.0 second. -/
def cfgC5 : Diarization.DiarizerConfig := ⟨3/4, 1, 10, 300⟩

/-- Claim C5 (counterexample): 11200 samples at 16000 Hz last 0.7 seconds —
shorter than the configured min_duration of 1.0 — yet identify_speaker
computes an embedding (the gate is the hard-coded 0.5-second floor, which
ignores min_duration) and creates and returns speaker 1 instead of returning
none. -/
theorem claim_C5_below_min_duration_still_identified :
    (((List.replicate 11200 (0 : ℚ)).length : ℚ) / 16000 <
      cfgC5.min_duration) ∧
    (Diarization.identify_speaker cfgC5 (fun _ _ => (1 : ℚ)) (fun a _ => a)
      (fun _ => some (0 : Nat)) (Diarization.initialState Nat)
      (List.replicate 11200 0) 16000 0).1 = some 1 := by
  constructor
  · simp only [List.length_replicate]
    norm_num [cfgC5]
  · have hemb : Diarization.compute_embedding (fun _ => some (0 : Nat))
        (List.replicate 11200 0) 16000 = some 0 := by
      unfold Diarization.compute_embedding
      rw [if_neg]
      simp only [List.length_replicate]
      norm_num
    have hfind : Diarization.find_matching_speaker cfgC5 (fun _ _ => (1 : ℚ))
        (Diarization.initialState Nat) 0 = none := rfl
    have hcap : (Diarization.initialState Nat).speakers.length <
        cfgC5.max_speakers := by
      norm_num [Diarization.initialState, cfgC5]
    simp only [Diarization.identify_speaker, hemb, hfind]
    rw [if_pos hcap]
    rfl

/-- Claim C5 (amended): every audio input shorter than 0.5 seconds (fewer than
sample_rate * 0.5 samples — the hard-coded floor of _compute_embedding, not
the configured min_duration) yields no embedding, and identify_speaker
returns none with the tracker state completely unchanged, neither matching an
existing speaker nor creating a new one. -/
theorem claim_C5_short_audio_unidentified {Emb : Type}
    (cfg : Diarization.DiarizerConfig) (sim : Emb → Emb → ℚ)
    (ema : Emb → Emb → Emb) (encode : List ℚ → Option Emb)
    (st : Diarization.DiarizerState Emb) (audio_data : List ℚ)
    (sample_rate : Nat) (now : ℚ)
    (hshort : (audio_data.length : ℚ) < (sample_rate : ℚ) * 0.5) :
    Diarization.identify_speaker cfg sim ema encode st audio_data sample_rate
      now = (none, st) := by
  have hemb : Diarization.compute_embedding encode audio_data sample_rate
      = none := by
    unfold Diarization.compute_embedding
    rw [if_pos hshort]
  simp only [Diarization.identify_speaker, hemb]

/-- Claim C5 witness: two samples at 16000 Hz are under the half-second floor,
so the tracker reports unidentified and is untouched. -/
theorem claim_C5_short_audio_unidentified_witness :
    Diarization.identify_speaker cfgC5 (fun _ _ => (1 : ℚ)) (fun a _ => a)
      (fun _ => some (7 : Nat)) (Diarization.initialState Nat) [0, 0] 16000 2 =
      (none, Diarization.initialState Nat) :=
  claim_C5_short_audio_unidentified cfgC5 (fun _ _ => (1 : ℚ)) (fun a _ => a)
    (fun _ => some (7 : Nat)) (Diarization.initialState Nat) [0, 0] 16000 2
    (by norm_num)

end LowDelay
